import Mathlib

/-!
Verification of the policy-controller admission webhook
(`policy-controller/src/admission.rs`).

The admission service validates proposed `Server` and `AuthorizationPolicy`
objects against a read-only, namespace-partitioned index of previously
admitted objects, returning an allow/deny decision.

The data-carrier types (`ServerSpec`, `AuthorizationPolicySpec`, the
namespace index) are declared in sibling crates of the repository and are
modelled here from the design document; the admission logic itself
(`call`, `admitRequest`, `admit_server`, `admit_authz_policy`, `validate_server`,
`validate_authz_policy`, `parse_spec`, `json_response`) is embedded
directly from `admission.rs`. The behaviour of the `kube` library types it
uses (`AdmissionResponse`, `ResourceExt::name`) is modelled from that
library's documented semantics.
-/

namespace Admission

/-- Modelled from the spec: a port-matcher of a `ServerSpec` — a numeric
port or a named port. Compared by literal equality only. -/
inductive Port where
  | number (n : Nat)
  | name (s : String)
deriving DecidableEq, Repr

/-- Modelled from the spec: a pod label-selector, compared by literal
(structural) equality, not semantic overlap. -/
structure LabelSelector where
  matchLabels : List (String × String)
deriving DecidableEq, Repr

/-- Modelled from the spec: `ServerSpec` { port : port-matcher,
podSelector : label-selector }. Declared in the repository's api crate,
which is not part of the provided source. -/
structure ServerSpec where
  port : Port
  podSelector : LabelSelector
deriving DecidableEq, Repr

/-- Modelled from the spec: the `targetRef` of an `AuthorizationPolicySpec`:
{ group : optional string, kind : string, name : string }. -/
structure TargetRef where
  group : Option String
  kind : String
  name : String
deriving DecidableEq, Repr

/-- Modelled from the spec: `AuthorizationPolicySpec` { targetRef }. -/
structure AuthorizationPolicySpec where
  target_ref : TargetRef
deriving DecidableEq, Repr

/-- Modelled from the spec: a `NamespaceSnapshot` — a mapping from object
name to its currently-admitted `ServerSpec`, exposed as a sequence of
(name, spec) entries. -/
structure NamespaceSnapshot where
  servers : List (String × ServerSpec)
deriving DecidableEq, Repr

/-- Modelled from the spec: the namespace-partitioned index of previously
admitted objects (the read contract of `linkerd_policy_controller_k8s_index::Index`):
`getNamespace(name) -> optional NamespaceSnapshot`. -/
structure Index where
  namespaces : List (String × NamespaceSnapshot)
deriving DecidableEq, Repr

/-- `Index::get_ns`: look a namespace up in the index; absent namespace
yields `none` (an empty view), not an error. -/
def Index.get_ns (idx : Index) (ns : String) : Option NamespaceSnapshot :=
  (idx.namespaces.find? (fun p => p.1 = ns)).map Prod.snd

/-- Replace every namespace snapshot's server list by its sublist keeping
the entries satisfying `f` (used to state the self-exclusion property). -/
def Index.filterServers (idx : Index) (f : String × ServerSpec → Bool) : Index :=
  ⟨idx.namespaces.map (fun p => (p.1, ⟨p.2.servers.filter f⟩))⟩

/-- The group of the policy resources, `Server::group(&())` and
`AuthorizationPolicy::group(&())`. The literal also appears inside
`validate_authz_policy`'s denial message in `admission.rs`. -/
def policyGroup : String := "policy.linkerd.io"

/-- `Server::kind(&())`. -/
def serverKind : String := "Server"

/-- `AuthorizationPolicy::kind(&())`. -/
def authzPolicyKind : String := "AuthorizationPolicy"

/-- `GroupVersionKind` carried by an admission request (`req.kind`). -/
structure GroupVersionKind where
  group : String
  version : String
  kind : String
deriving DecidableEq, Repr

/-- The opaque `spec` sub-document of a proposed `DynamicObject`: a
structured value that may decode as one of the typed specs or be
malformed. `serde_json::from_value` on it is modelled by the decoders
below. -/
inductive SpecData where
  | server (s : ServerSpec)
  | authz (a : AuthorizationPolicySpec)
  | malformed (msg : String)
deriving DecidableEq, Repr

/-- A `kube::core::DynamicObject` as used by `parse_spec`: its
`.metadata.name`, `.metadata.namespace` and its `data["spec"]`
sub-document, each possibly absent. -/
structure DynamicObject where
  metaName : Option String
  metaNamespace : Option String
  spec : Option SpecData
deriving DecidableEq, Repr

/-- `kube::core::admission::AdmissionRequest<DynamicObject>`: the request
uid (correlation identity), the resource `GroupVersionKind`, and the
proposed object (possibly absent). -/
structure AdmissionRequest where
  uid : String
  kind : GroupVersionKind
  object : Option DynamicObject
deriving DecidableEq, Repr

/-- `kube::core::admission::AdmissionResponse`, reduced to the fields the
admission service sets: the echoed uid, the allowed flag, and the result
message (the denial reason). -/
structure AdmissionResponse where
  uid : String
  allowed : Bool
  message : Option String
deriving DecidableEq, Repr

/-- `AdmissionResponse::from(&req)` (kube library semantics): echoes the
request's uid and starts out allowed with no message. -/
def AdmissionResponse.fromReq (req : AdmissionRequest) : AdmissionResponse :=
  { uid := req.uid, allowed := true, message := none }

/-- `AdmissionResponse::invalid(reason)` (kube library semantics): a
self-contained failure response. It is not built from any request, so its
uid is the empty default string. -/
def AdmissionResponse.invalid (reason : String) : AdmissionResponse :=
  { uid := "", allowed := false, message := some reason }

/-- `AdmissionResponse::deny(reason)` (kube library semantics): clears the
allowed flag and records the reason, keeping the echoed uid. -/
def AdmissionResponse.deny (rsp : AdmissionResponse) (reason : String) : AdmissionResponse :=
  { rsp with allowed := false, message := some reason }

/-- Decode the opaque `spec` document as a `ServerSpec`
(`serde_json::from_value::<ServerSpec>`). -/
def decodeServer : SpecData → Except String ServerSpec
  | .server s => .ok s
  | .authz _ => .error "invalid ServerSpec"
  | .malformed m => .error m

/-- Decode the opaque `spec` document as an `AuthorizationPolicySpec`
(`serde_json::from_value::<AuthorizationPolicySpec>`). -/
def decodeAuthzPolicy : SpecData → Except String AuthorizationPolicySpec
  | .server _ => .error "invalid AuthorizationPolicySpec"
  | .authz a => .ok a
  | .malformed m => .error m

/-- Outcome of `parse_spec`: success with (namespace, name, spec), an
error value, or a panic (Rust `expect`), which produces no value at all. -/
inductive ParseResult (T : Type) where
  | ok (ns : String) (name : String) (spec : T)
  | err (msg : String)
  | panicked (msg : String)
deriving Repr

/-- `parse_spec` from `admission.rs`: take the proposed object (erroring
when absent), its namespace (erroring with "no 'namespace' field set on
server" when absent), its name (`ResourceExt::name`, which PANICS when
`.metadata.name` is absent — kube library semantics of `.expect`), then
the `spec` sub-document (erroring when absent), and decode it. -/
def parse_spec {T : Type} (decode : SpecData → Except String T)
    (req : AdmissionRequest) : ParseResult T :=
  match req.object with
  | none => .err "missing server"
  | some obj =>
    match obj.metaNamespace with
    | none => .err "no 'namespace' field set on server"
    | some ns =>
      match obj.metaName with
      | none => .panicked "kind has metadata.name"
      | some name =>
        match obj.spec with
        | none => .err "no 'spec' field set on server"
        | some data =>
          match decode data with
          | .error e => .err e
          | .ok spec => .ok ns name spec

/-- `validate_authz_policy` from `admission.rs`: the targetRef's group
must be `Some(Server::group(&()))` and its kind must equal
`Server::kind(&())`; otherwise bail with the fixed message. -/
def validate_authz_policy (spec : AuthorizationPolicySpec) : Except String Unit :=
  if spec.target_ref.group ≠ some policyGroup ∨ spec.target_ref.kind ≠ serverKind then
    .error "targetRef must be a policy.linkerd.io Server"
  else
    .ok ()

/-- The `for (srvname, srv) in nsidx.servers.iter()` loop of
`validate_server`: bail at the first entry with a different name, an equal
port and an equal pod selector. -/
def validateServerLoop (name : String) (spec : ServerSpec) :
    List (String × ServerSpec) → Except String Unit
  | [] => .ok ()
  | (srvname, srv) :: rest =>
    if srvname ≠ name ∧ srv.port = spec.port ∧ srv.podSelector = spec.podSelector then
      .error "identical server spec already exists"
    else
      validateServerLoop name spec rest

/-- `validate_server` from `admission.rs`: if the namespace has a
snapshot, scan its servers for a conflicting entry; an absent namespace
validates trivially. -/
def validate_server (ns : String) (name : String) (spec : ServerSpec)
    (index : Index) : Except String Unit :=
  match index.get_ns ns with
  | some nsidx => validateServerLoop name spec nsidx.servers
  | none => .ok ()

/-- The conflict condition tested by `validate_server`'s loop on one
snapshot entry: a different name, an equal port and an equal pod
selector. -/
def conflictsWith (name : String) (spec : ServerSpec)
    (p : String × ServerSpec) : Bool :=
  decide (p.1 ≠ name ∧ p.2.port = spec.port ∧ p.2.podSelector = spec.podSelector)

/-- Whether the namespace's snapshot holds an entry conflicting with the
proposed server (false when the namespace is absent from the index). -/
def hasConflict (ns : String) (name : String) (spec : ServerSpec)
    (index : Index) : Bool :=
  match index.get_ns ns with
  | some nsidx => nsidx.servers.any (conflictsWith name spec)
  | none => false

/-- `l` begins with the segment `n` (executable). -/
def beginsWith : List Char → List Char → Bool
  | [], _ => true
  | _ :: _, [] => false
  | c :: cs, d :: ds => decide (c = d) && beginsWith cs ds

/-- `needle` occurs contiguously inside `hay` (executable substring
containment, characterised by `substrOccurs_iff` below). -/
def substrOccurs (needle : List Char) : List Char → Bool
  | [] => beginsWith needle []
  | d :: rest => beginsWith needle (d :: rest) || substrOccurs needle rest

/-- Outcome of `admitRequest` and of the per-kind admitters: a response, or a
panic propagating out of `parse_spec`. -/
inductive AdmitOutcome where
  | response (rsp : AdmissionResponse)
  | panicked (msg : String)
deriving DecidableEq, Repr

/-- `admit_authz_policy` from `admission.rs`: parse the spec (an `Err`
becomes `AdmissionResponse::invalid`, NOT the uid-echoing response built
by `AdmissionResponse::from(&req)`), then validate: `Ok` returns the
echoing response, `Err` denies on it. -/
def admit_authz_policy (req : AdmissionRequest) : AdmitOutcome :=
  match parse_spec decodeAuthzPolicy req with
  | .err e => .response (AdmissionResponse.invalid e)
  | .panicked m => .panicked m
  | .ok _ _ spec =>
    match validate_authz_policy spec with
    | .ok () => .response (AdmissionResponse.fromReq req)
    | .error e => .response ((AdmissionResponse.fromReq req).deny e)

/-- `admit_server` from `admission.rs`: like `admit_authz_policy`, but
validation consults the shared index. -/
def admit_server (req : AdmissionRequest) (index : Index) : AdmitOutcome :=
  match parse_spec decodeServer req with
  | .err e => .response (AdmissionResponse.invalid e)
  | .panicked m => .panicked m
  | .ok ns name spec =>
    match validate_server ns name spec index with
    | .ok () => .response (AdmissionResponse.fromReq req)
    | .error e => .response ((AdmissionResponse.fromReq req).deny e)

/-- `admitRequest` from `admission.rs`: dispatch on the request's (group, kind);
an unregistered pair yields `AdmissionResponse::invalid` with the
templated "unsupported resource type" message. -/
def admitRequest (req : AdmissionRequest) (index : Index) : AdmitOutcome :=
  if req.kind.group = policyGroup ∧ req.kind.kind = authzPolicyKind then
    admit_authz_policy req
  else if req.kind.group = policyGroup ∧ req.kind.kind = serverKind then
    admit_server req index
  else
    .response (AdmissionResponse.invalid
      ("unsupported resource type: " ++ req.kind.group ++ "." ++ req.kind.version
        ++ "." ++ req.kind.kind))

/-- `kube::core::admission::AdmissionReview<DynamicObject>` as decoded
from the request body: its `request` field may be absent, in which case
`TryInto<AdmissionRequest>` fails. -/
structure Review where
  request : Option AdmissionRequest
deriving DecidableEq, Repr

/-- The aggregated request body, as seen by `AdmissionService::call`:
either the bytes were read and `serde_json::from_reader` produced a
`Review`, or the bytes were read but were malformed JSON (the decode
error text is kept), or reading the body itself failed with a
`hyper::Error` (the transport-fatal case). -/
inductive BodyRead where
  | review (r : Review)
  | malformed (msg : String)
  | readError (msg : String)
deriving DecidableEq, Repr

/-- Outcome of one inbound HTTP call: a not-found response with empty
body, a status-OK JSON response carrying an admission response, a
transport error returned to the caller (`Error::Request`), or a panic. -/
inductive HttpOutcome where
  | notFound
  | ok (rsp : AdmissionResponse)
  | transportError (msg : String)
  | panicked (msg : String)
deriving DecidableEq, Repr

/-- `AdmissionService::call` from `admission.rs`: gate on method POST and
path "/", then aggregate the body (a `hyper::Error` propagates as
`Error::Request`), decode the `Review` (a decode failure becomes a
status-OK `AdmissionResponse::invalid` response), convert it to an
`AdmissionRequest` (failure likewise becomes an invalid response), and
hand it to `admitRequest`. -/
def call (index : Index) (method : String) (path : String)
    (body : BodyRead) : HttpOutcome :=
  if method ≠ "POST" ∨ path ≠ "/" then
    .notFound
  else
    match body with
    | .readError m => .transportError ("failed to read request body: " ++ m)
    | .malformed m => .ok (AdmissionResponse.invalid m)
    | .review r =>
      match r.request with
      | none => .ok (AdmissionResponse.invalid "expected AdmissionRequest")
      | some req =>
        match admitRequest req index with
        | .response rsp => .ok rsp
        | .panicked m => .panicked m

/-! ### Helper lemmas -/

/-- `conflictsWith` holds exactly when the entry has a different name, an
equal port and an equal pod selector. -/
theorem conflictsWith_eq_true_iff (name : String) (spec : ServerSpec)
    (p : String × ServerSpec) :
    conflictsWith name spec p = true ↔
      p.1 ≠ name ∧ p.2.port = spec.port ∧ p.2.podSelector = spec.podSelector := by
  simp [conflictsWith]

/-- The conflict-scan loop of `validate_server`, expressed as one
conditional on `List.any`. -/
theorem validateServerLoop_eq (name : String) (spec : ServerSpec)
    (l : List (String × ServerSpec)) :
    validateServerLoop name spec l =
      if l.any (conflictsWith name spec)
      then .error "identical server spec already exists"
      else .ok () := by
  induction l with
  | nil => rfl
  | cons hd tl ih =>
    obtain ⟨srvname, srv⟩ := hd
    by_cases h : srvname ≠ name ∧ srv.port = spec.port ∧ srv.podSelector = spec.podSelector
    · have hc : conflictsWith name spec (srvname, srv) = true :=
        (conflictsWith_eq_true_iff name spec (srvname, srv)).mpr h
      simp only [validateServerLoop, if_pos h, List.any_cons, hc, Bool.true_or, if_pos]
    · have hc : conflictsWith name spec (srvname, srv) = false := by
        rw [Bool.eq_false_iff]
        intro hc
        exact h ((conflictsWith_eq_true_iff name spec (srvname, srv)).mp hc)
      simp only [validateServerLoop, if_neg h, List.any_cons, hc, Bool.false_or, ih]

/-- `validate_server` expressed by the `hasConflict` predicate. -/
theorem validate_server_eq (ns : String) (name : String) (spec : ServerSpec)
    (index : Index) :
    validate_server ns name spec index =
      if hasConflict ns name spec index
      then .error "identical server spec already exists"
      else .ok () := by
  unfold validate_server hasConflict
  cases index.get_ns ns with
  | none => rfl
  | some nsidx => exact validateServerLoop_eq name spec nsidx.servers

/-- `hasConflict` holds exactly when the namespace's snapshot has an
entry with a different name, equal port and equal pod selector. -/
theorem hasConflict_iff (ns : String) (name : String) (spec : ServerSpec)
    (index : Index) :
    hasConflict ns name spec index = true ↔
      ∃ nsidx, index.get_ns ns = some nsidx ∧ ∃ p ∈ nsidx.servers,
        p.1 ≠ name ∧ p.2.port = spec.port ∧ p.2.podSelector = spec.podSelector := by
  unfold hasConflict
  cases h : index.get_ns ns with
  | none => simp
  | some nsidx => simp [List.any_eq_true, conflictsWith]

/-- When the request's (group, kind) is (policy group, Server), `admitRequest`
dispatches to `admit_server`. -/
theorem admit_eq_admit_server (req : AdmissionRequest) (index : Index)
    (hg : req.kind.group = policyGroup) (hk : req.kind.kind = serverKind) :
    admitRequest req index = admit_server req index := by
  unfold admitRequest
  rw [if_neg, if_pos ⟨hg, hk⟩]
  rintro ⟨-, hk2⟩
  rw [hk] at hk2
  exact absurd hk2 (by decide)

/-- When the request's (group, kind) is (policy group, AuthorizationPolicy),
`admitRequest` dispatches to `admit_authz_policy`. -/
theorem admit_eq_admit_authz (req : AdmissionRequest) (index : Index)
    (hg : req.kind.group = policyGroup) (hk : req.kind.kind = authzPolicyKind) :
    admitRequest req index = admit_authz_policy req := by
  unfold admitRequest
  rw [if_pos ⟨hg, hk⟩]

/-- `Index.get_ns` on a filtered index filters the snapshot it finds. -/
theorem get_ns_filterServers (idx : Index) (f : String × ServerSpec → Bool)
    (ns : String) :
    (idx.filterServers f).get_ns ns =
      (idx.get_ns ns).map (fun s => ⟨s.servers.filter f⟩) := by
  obtain ⟨l⟩ := idx
  induction l with
  | nil => rfl
  | cons hd tl ih =>
    by_cases h : hd.1 = ns
    · simp [Index.filterServers, Index.get_ns, h]
    · simp only [Index.filterServers, Index.get_ns] at ih ⊢
      simp [List.find?_cons, h] at ih ⊢
      exact ih

/-- Entries named `name` never satisfy the conflict condition, so the
scan ignores them: filtering them away changes nothing, and a snapshot of
only such entries has no conflict. -/
theorem any_conflictsWith_filter (name : String) (spec : ServerSpec)
    (l : List (String × ServerSpec)) :
    (l.filter (fun p => decide (p.1 ≠ name))).any (conflictsWith name spec)
      = l.any (conflictsWith name spec) ∧
    (l.filter (fun p => decide (p.1 = name))).any (conflictsWith name spec)
      = false := by
  induction l with
  | nil => exact ⟨rfl, rfl⟩
  | cons hd tl ih =>
    by_cases h : hd.1 = name
    · have hc : conflictsWith name spec hd = false := by
        rw [Bool.eq_false_iff]
        intro hc
        exact ((conflictsWith_eq_true_iff _ _ _).mp hc).1 h
      constructor
      · rw [List.filter_cons, if_neg (by simp [h]), List.any_cons, hc,
          Bool.false_or, ih.1]
      · rw [List.filter_cons, if_pos (by simp [h]), List.any_cons, hc,
          Bool.false_or, ih.2]
    · constructor
      · rw [List.filter_cons, if_pos (by simp [h]), List.any_cons,
          List.any_cons, ih.1]
      · rw [List.filter_cons, if_neg (by simp [h]), ih.2]

/-- `hasConflict` on the same-name / different-name restrictions of the
index. -/
theorem hasConflict_filterServers (ns : String) (name : String)
    (spec : ServerSpec) (idx : Index) :
    hasConflict ns name spec (idx.filterServers (fun p => decide (p.1 = name)))
      = false ∧
    hasConflict ns name spec (idx.filterServers (fun p => decide (p.1 ≠ name)))
      = hasConflict ns name spec idx := by
  unfold hasConflict
  rw [get_ns_filterServers, get_ns_filterServers]
  cases idx.get_ns ns with
  | none => exact ⟨rfl, rfl⟩
  | some s =>
    exact ⟨(any_conflictsWith_filter name spec s.servers).2,
      (any_conflictsWith_filter name spec s.servers).1⟩

/-! ### Claims -/

/-- Claim C1: for every Server admission request whose proposed spec
deserializes to a `ServerSpec`, the decision is a denial with reason
"identical server spec already exists" if and only if the namespace's
snapshot contains an entry with a different name whose port equals the
proposed port and whose podSelector equals the proposed podSelector
(literal equality); otherwise, including when the namespace is absent
from the index, the request is allowed. -/
theorem server_conflict_decision (req : AdmissionRequest) (index : Index)
    (ns : String) (name : String) (spec : ServerSpec)
    (hg : req.kind.group = policyGroup) (hk : req.kind.kind = serverKind)
    (hparse : parse_spec decodeServer req = .ok ns name spec) :
    (admitRequest req index =
        .response ⟨req.uid, false, some "identical server spec already exists"⟩ ↔
      ∃ nsidx, index.get_ns ns = some nsidx ∧ ∃ p ∈ nsidx.servers,
        p.1 ≠ name ∧ p.2.port = spec.port ∧ p.2.podSelector = spec.podSelector) ∧
    ((¬ ∃ nsidx, index.get_ns ns = some nsidx ∧ ∃ p ∈ nsidx.servers,
        p.1 ≠ name ∧ p.2.port = spec.port ∧ p.2.podSelector = spec.podSelector) →
      admitRequest req index = .response ⟨req.uid, true, none⟩) := by
  rw [admit_eq_admit_server req index hg hk]
  have hsrv : admit_server req index =
      if hasConflict ns name spec index
      then .response ⟨req.uid, false, some "identical server spec already exists"⟩
      else .response ⟨req.uid, true, none⟩ := by
    simp only [admit_server, hparse]
    rw [validate_server_eq]
    by_cases h : hasConflict ns name spec index
    · simp [h, AdmissionResponse.fromReq, AdmissionResponse.deny]
    · simp [h, AdmissionResponse.fromReq]
  rw [hsrv, ← hasConflict_iff ns name spec index]
  by_cases h : hasConflict ns name spec index = true
  · simp [h]
  · simp [h]

/-- Witness for C1: in namespace "ns1" holding Server "a" at port 8080
with selector {app:foo}, a new Server "b" with the same port and selector
is denied with the conflict reason. -/
theorem server_conflict_decision_witness :
    admitRequest ⟨"uid-1w", ⟨"policy.linkerd.io", "v1beta1", "Server"⟩,
        some ⟨some "b", some "ns1", some (.server ⟨.number 8080, ⟨[("app", "foo")]⟩⟩)⟩⟩
      ⟨[("ns1", ⟨[("a", ⟨.number 8080, ⟨[("app", "foo")]⟩⟩)]⟩)]⟩
      = .response ⟨"uid-1w", false, some "identical server spec already exists"⟩ := by
  refine ((server_conflict_decision
    ⟨"uid-1w", ⟨"policy.linkerd.io", "v1beta1", "Server"⟩,
      some ⟨some "b", some "ns1", some (.server ⟨.number 8080, ⟨[("app", "foo")]⟩⟩)⟩⟩
    ⟨[("ns1", ⟨[("a", ⟨.number 8080, ⟨[("app", "foo")]⟩⟩)]⟩)]⟩
    "ns1" "b" ⟨.number 8080, ⟨[("app", "foo")]⟩⟩ rfl rfl rfl).1).mpr ?_
  exact ⟨⟨[("a", ⟨.number 8080, ⟨[("app", "foo")]⟩⟩)]⟩, by decide,
    ("a", ⟨.number 8080, ⟨[("app", "foo")]⟩⟩), by decide, by decide, rfl, rfl⟩

/-- Claim C2: for every AuthorizationPolicy admission request whose
proposed spec deserializes to an `AuthorizationPolicySpec`, the request
is allowed if and only if targetRef.group equals the policy-resource
group and targetRef.kind equals the "Server" kind literal; any mismatch
(including an absent group) yields a denial with the fixed message. -/
theorem authz_targetref_decision (req : AdmissionRequest) (index : Index)
    (ns : String) (name : String) (spec : AuthorizationPolicySpec)
    (hg : req.kind.group = policyGroup) (hk : req.kind.kind = authzPolicyKind)
    (hparse : parse_spec decodeAuthzPolicy req = .ok ns name spec) :
    (admitRequest req index = .response ⟨req.uid, true, none⟩ ↔
      spec.target_ref.group = some policyGroup ∧
        spec.target_ref.kind = serverKind) ∧
    (¬(spec.target_ref.group = some policyGroup ∧
        spec.target_ref.kind = serverKind) →
      admitRequest req index = .response
        ⟨req.uid, false, some "targetRef must be a policy.linkerd.io Server"⟩) := by
  rw [admit_eq_admit_authz req index hg hk]
  simp only [admit_authz_policy, hparse]
  unfold validate_authz_policy
  by_cases h : spec.target_ref.group = some policyGroup ∧
      spec.target_ref.kind = serverKind
  · rw [if_neg (by push_neg; exact h)]
    exact ⟨by simp [AdmissionResponse.fromReq, h], fun hn => absurd h hn⟩
  · rw [if_pos (by tauto)]
    exact ⟨by simp [AdmissionResponse.fromReq, AdmissionResponse.deny, h],
      fun _ => rfl⟩

/-- Witness for C2: a targetRef with the policy group and kind Server is
allowed; the response echoes the request uid. -/
theorem authz_targetref_decision_witness :
    admitRequest ⟨"uid-2w", ⟨"policy.linkerd.io", "v1beta1", "AuthorizationPolicy"⟩,
        some ⟨some "ap", some "ns1",
          some (.authz ⟨⟨some "policy.linkerd.io", "Server", "srv"⟩⟩)⟩⟩ ⟨[]⟩
      = .response ⟨"uid-2w", true, none⟩ :=
  ((authz_targetref_decision
    ⟨"uid-2w", ⟨"policy.linkerd.io", "v1beta1", "AuthorizationPolicy"⟩,
      some ⟨some "ap", some "ns1",
        some (.authz ⟨⟨some "policy.linkerd.io", "Server", "srv"⟩⟩)⟩⟩
    ⟨[]⟩ "ns1" "ap"
    ⟨⟨some "policy.linkerd.io", "Server", "srv"⟩⟩ rfl rfl rfl).1).mpr ⟨rfl, rfl⟩

/-- Claim C3: for every decoded ChangeRequest whose (group, kind) pair
matches no registered validator, the dispatcher returns a denial whose
reason is "unsupported resource type: {group}.{version}.{kind}"; unknown
types are never allowed. -/
theorem unsupported_type_denied (req : AdmissionRequest) (index : Index)
    (h1 : ¬(req.kind.group = policyGroup ∧ req.kind.kind = authzPolicyKind))
    (h2 : ¬(req.kind.group = policyGroup ∧ req.kind.kind = serverKind)) :
    admitRequest req index = .response ⟨"", false,
      some ("unsupported resource type: " ++ req.kind.group ++ "."
        ++ req.kind.version ++ "." ++ req.kind.kind)⟩ := by
  unfold admitRequest
  rw [if_neg h1, if_neg h2]
  rfl

/-- Witness for C3: a request for group "other.io", kind "Widget" is
denied with the templated reason. -/
theorem unsupported_type_denied_witness :
    admitRequest ⟨"uid-3w", ⟨"other.io", "v1", "Widget"⟩, none⟩ ⟨[]⟩
      = .response ⟨"", false,
        some "unsupported resource type: other.io.v1.Widget"⟩ := by
  rw [unsupported_type_denied ⟨"uid-3w", ⟨"other.io", "v1", "Widget"⟩, none⟩ ⟨[]⟩
    (by decide) (by decide)]
  decide

/-- Claim C4: an existing snapshot entry whose name equals the request's
name is skipped by the conflict check: a snapshot restricted to entries
of the request's own name always validates (regardless of how the specs
differ or agree), and removing those entries does not change the
validation outcome at all. -/
theorem server_self_exclusion (ns : String) (name : String)
    (spec : ServerSpec) (idx : Index) :
    validate_server ns name spec
        (idx.filterServers (fun p => decide (p.1 = name))) = .ok () ∧
    validate_server ns name spec
        (idx.filterServers (fun p => decide (p.1 ≠ name))) =
      validate_server ns name spec idx := by
  obtain ⟨h1, h2⟩ := hasConflict_filterServers ns name spec idx
  rw [validate_server_eq, validate_server_eq, validate_server_eq, h1, h2]
  simp

/-- `beginsWith` is segment-at-the-start containment. -/
theorem beginsWith_iff (n : List Char) (l : List Char) :
    beginsWith n l = true ↔ ∃ t, l = n ++ t := by
  induction n generalizing l with
  | nil => simp [beginsWith]
  | cons c cs ih =>
    cases l with
    | nil => simp [beginsWith]
    | cons d ds =>
      simp only [beginsWith, Bool.and_eq_true, decide_eq_true_eq, ih,
        List.cons_append]
      constructor
      · rintro ⟨rfl, t, rfl⟩
        exact ⟨t, rfl⟩
      · rintro ⟨t, h⟩
        injection h with h1 h2
        exact ⟨h1.symm, t, h2⟩

/-- `substrOccurs` is contiguous-substring containment. -/
theorem substrOccurs_iff (n : List Char) (h : List Char) :
    substrOccurs n h = true ↔ ∃ l1 l2, h = l1 ++ n ++ l2 := by
  induction h with
  | nil =>
    simp only [substrOccurs, beginsWith_iff]
    constructor
    · rintro ⟨t, ht⟩
      exact ⟨[], t, ht⟩
    · rintro ⟨l1, l2, hl⟩
      rcases List.append_eq_nil.mp (List.append_eq_nil.mp hl.symm).1 with ⟨rfl, rfl⟩
      exact ⟨l2, by simpa using hl⟩
  | cons d ds ih =>
    simp only [substrOccurs, Bool.or_eq_true, beginsWith_iff, ih]
    constructor
    · rintro (⟨t, ht⟩ | ⟨l1, l2, rfl⟩)
      · exact ⟨[], t, by simpa using ht⟩
      · exact ⟨d :: l1, l2, rfl⟩
    · rintro ⟨l1, l2, hl⟩
      cases l1 with
      | nil => exact Or.inl ⟨l2, by simpa using hl⟩
      | cons x l1 =>
        right
        injection hl with h1 h2
        exact ⟨l1, l2, h2⟩

/-- Counterexample for C5: a Server admission request with uid "uid-5c"
whose spec fails to deserialize is denied via `AdmissionResponse::invalid`,
whose uid is the empty string — the response does NOT echo the request's
uid. -/
theorem uid_echo_counterexample :
    admitRequest ⟨"uid-5c", ⟨"policy.linkerd.io", "v1beta1", "Server"⟩,
        some ⟨some "web", some "ns1", some (.malformed "bad spec")⟩⟩ ⟨[]⟩
      = .response ⟨"", false, some "bad spec"⟩ ∧
    ("" : String) ≠ "uid-5c" :=
  ⟨by decide, by decide⟩

/-- Claim C5 (amended): the response echoes the request's uid for every
decision produced after the spec parses successfully (allows and
validation-rule denials), for both supported kinds; denials produced by
`AdmissionResponse::invalid` (envelope decode failure, spec
deserialization failure, unsupported type) instead carry an empty uid. -/
theorem uid_echo_after_parse (req : AdmissionRequest) (index : Index)
    (ns : String) (name : String) :
    (∀ spec : ServerSpec, req.kind.group = policyGroup →
      req.kind.kind = serverKind →
      parse_spec decodeServer req = .ok ns name spec →
      ∃ rsp, admitRequest req index = .response rsp ∧ rsp.uid = req.uid) ∧
    (∀ spec : AuthorizationPolicySpec, req.kind.group = policyGroup →
      req.kind.kind = authzPolicyKind →
      parse_spec decodeAuthzPolicy req = .ok ns name spec →
      ∃ rsp, admitRequest req index = .response rsp ∧ rsp.uid = req.uid) := by
  constructor
  · intro spec hg hk hparse
    rw [admit_eq_admit_server req index hg hk]
    simp only [admit_server, hparse]
    cases hval : validate_server ns name spec index with
    | ok u => cases u; exact ⟨_, rfl, rfl⟩
    | error e => exact ⟨_, rfl, rfl⟩
  · intro spec hg hk hparse
    rw [admit_eq_admit_authz req index hg hk]
    simp only [admit_authz_policy, hparse]
    cases hval : validate_authz_policy spec with
    | ok u => cases u; exact ⟨_, rfl, rfl⟩
    | error e => exact ⟨_, rfl, rfl⟩

/-- Witness for amended C5: an allowed Server request's response carries
the request's uid. -/
theorem uid_echo_after_parse_witness :
    ∃ rsp, admitRequest ⟨"uid-5w", ⟨"policy.linkerd.io", "v1beta1", "Server"⟩,
        some ⟨some "web", some "ns1",
          some (.server ⟨.number 9090, ⟨[("app", "web")]⟩⟩)⟩⟩ ⟨[]⟩
      = .response rsp ∧ rsp.uid = "uid-5w" :=
  (uid_echo_after_parse
    ⟨"uid-5w", ⟨"policy.linkerd.io", "v1beta1", "Server"⟩,
      some ⟨some "web", some "ns1",
        some (.server ⟨.number 9090, ⟨[("app", "web")]⟩⟩)⟩⟩
    ⟨[]⟩ "ns1" "web").1 ⟨.number 9090, ⟨[("app", "web")]⟩⟩ rfl rfl rfl

/-- Claim C6: a body that is read but fails to decode as a ChangeRequest
envelope yields a status-OK response carrying a denial with the decode
error text as reason; only a body-read failure propagates as the distinct
transport error. -/
theorem decode_failure_is_denial (index : Index) (m : String) :
    call index "POST" "/" (.malformed m) = .ok ⟨"", false, some m⟩ ∧
    call index "POST" "/" (.readError m)
      = .transportError ("failed to read request body: " ++ m) := by
  constructor
  · unfold call
    rw [if_neg (by simp)]
    rfl
  · unfold call
    rw [if_neg (by simp)]

/-- Claim C7: a call with the wrong method or the wrong path gets a
not-found response, independent of the body. -/
theorem wrong_route_not_found (index : Index) (method : String)
    (path : String) (body : BodyRead)
    (h : method ≠ "POST" ∨ path ≠ "/") :
    call index method path body = .notFound := by
  unfold call
  rw [if_pos h]

/-- Witness for C7: a GET at "/" with a malformed body is not-found. -/
theorem wrong_route_not_found_witness :
    call ⟨[]⟩ "GET" "/" (.malformed "ignored") = .notFound :=
  wrong_route_not_found ⟨[]⟩ "GET" "/" (.malformed "ignored")
    (Or.inl (by decide))

/-- Counterexample for C8: the missing-namespace denial reason is the
literal "no 'namespace' field set on server", which does not contain the
claimed string "no namespace set" as a contiguous substring. -/
theorem namespace_reason_counterexample :
    admitRequest ⟨"uid-8c", ⟨"policy.linkerd.io", "v1beta1", "Server"⟩,
        some ⟨some "web", none,
          some (.server ⟨.number 8080, ⟨[("app", "web")]⟩⟩)⟩⟩ ⟨[]⟩
      = .response ⟨"", false, some "no 'namespace' field set on server"⟩ ∧
    substrOccurs "no namespace set".toList
      "no 'namespace' field set on server".toList = false :=
  ⟨by decide, by decide⟩

/-- Claim C8 (amended): for every admission request of a supported kind
whose proposed object is present but has no namespace, the result is a
denial Decision whose reason is the fixed string
"no 'namespace' field set on server" (naming the missing namespace), and
the call does not crash. -/
theorem no_namespace_denied (req : AdmissionRequest) (index : Index)
    (obj : DynamicObject)
    (hobj : req.object = some obj) (hns : obj.metaNamespace = none)
    (hkind : (req.kind.group = policyGroup ∧ req.kind.kind = authzPolicyKind) ∨
      (req.kind.group = policyGroup ∧ req.kind.kind = serverKind)) :
    admitRequest req index
      = .response ⟨"", false, some "no 'namespace' field set on server"⟩ := by
  cases hkind with
  | inl h =>
    rw [admit_eq_admit_authz req index h.1 h.2]
    simp only [admit_authz_policy, parse_spec, hobj, hns]
    rfl
  | inr h =>
    rw [admit_eq_admit_server req index h.1 h.2]
    simp only [admit_server, parse_spec, hobj, hns]
    rfl

/-- Witness for amended C8: a Server request without a namespace is
denied with the fixed reason. -/
theorem no_namespace_denied_witness :
    admitRequest ⟨"uid-8w", ⟨"policy.linkerd.io", "v1beta1", "Server"⟩,
        some ⟨some "web", none,
          some (.server ⟨.number 8080, ⟨[("app", "web")]⟩⟩)⟩⟩ ⟨[]⟩
      = .response ⟨"", false, some "no 'namespace' field set on server"⟩ :=
  no_namespace_denied
    ⟨"uid-8w", ⟨"policy.linkerd.io", "v1beta1", "Server"⟩,
      some ⟨some "web", none,
        some (.server ⟨.number 8080, ⟨[("app", "web")]⟩⟩)⟩⟩ ⟨[]⟩
    ⟨some "web", none, some (.server ⟨.number 8080, ⟨[("app", "web")]⟩⟩)⟩
    rfl rfl (Or.inr ⟨rfl, rfl⟩)

/-- Claim C9: the admission decision is deterministic — two validations
of the same request against the same index produce the same decision
(same allowed flag and same reason). -/
theorem admit_deterministic (req : AdmissionRequest) (index : Index)
    (rsp1 : AdmissionResponse) (rsp2 : AdmissionResponse)
    (h1 : admitRequest req index = .response rsp1)
    (h2 : admitRequest req index = .response rsp2) :
    rsp1 = rsp2 ∧ rsp1.allowed = rsp2.allowed ∧ rsp1.message = rsp2.message := by
  rw [h1] at h2
  injection h2 with h
  exact ⟨h, by rw [h], by rw [h]⟩

/-- Witness for C9: the unsupported-type decision computed twice. -/
theorem admit_deterministic_witness :
    (AdmissionResponse.mk "" false (some "unsupported resource type: g.v.k"))
        = AdmissionResponse.mk "" false (some "unsupported resource type: g.v.k") ∧
      (AdmissionResponse.mk "" false
          (some "unsupported resource type: g.v.k")).allowed
        = (AdmissionResponse.mk "" false
          (some "unsupported resource type: g.v.k")).allowed ∧
      (AdmissionResponse.mk "" false
          (some "unsupported resource type: g.v.k")).message
        = (AdmissionResponse.mk "" false
          (some "unsupported resource type: g.v.k")).message :=
  admit_deterministic ⟨"u9", ⟨"g", "v", "k"⟩, none⟩ ⟨[]⟩
    ⟨"", false, some "unsupported resource type: g.v.k"⟩
    ⟨"", false, some "unsupported resource type: g.v.k"⟩
    (by decide) (by decide)

/-- Claim C10: for every admission request of a supported kind whose
proposed object is present and has a namespace but lacks a metadata.name,
`parse_spec`'s call to `obj.name()` panics, so the call produces neither
a Decision response nor the distinct transport error. -/
theorem missing_name_panics (req : AdmissionRequest) (index : Index)
    (obj : DynamicObject) (ns : String)
    (hobj : req.object = some obj) (hns : obj.metaNamespace = some ns)
    (hname : obj.metaName = none)
    (hkind : (req.kind.group = policyGroup ∧ req.kind.kind = authzPolicyKind) ∨
      (req.kind.group = policyGroup ∧ req.kind.kind = serverKind)) :
    call index "POST" "/" (.review ⟨some req⟩)
      = .panicked "kind has metadata.name" := by
  have hdisp : admitRequest req index = .panicked "kind has metadata.name" := by
    cases hkind with
    | inl h =>
      rw [admit_eq_admit_authz req index h.1 h.2]
      simp only [admit_authz_policy, parse_spec, hobj, hns, hname]
    | inr h =>
      rw [admit_eq_admit_server req index h.1 h.2]
      simp only [admit_server, parse_spec, hobj, hns, hname]
  unfold call
  rw [if_neg (by simp)]
  simp only [hdisp]

/-- Witness for C10: a POSTed Server request whose object has a
namespace but no name makes the call panic. -/
theorem missing_name_panics_witness :
    call ⟨[]⟩ "POST" "/" (.review ⟨some
        ⟨"uid-10w", ⟨"policy.linkerd.io", "v1beta1", "Server"⟩,
          some ⟨none, some "ns1",
            some (.server ⟨.number 8080, ⟨[("app", "web")]⟩⟩)⟩⟩⟩)
      = .panicked "kind has metadata.name" :=
  missing_name_panics
    ⟨"uid-10w", ⟨"policy.linkerd.io", "v1beta1", "Server"⟩,
      some ⟨none, some "ns1", some (.server ⟨.number 8080, ⟨[("app", "web")]⟩⟩)⟩⟩
    ⟨[]⟩
    ⟨none, some "ns1", some (.server ⟨.number 8080, ⟨[("app", "web")]⟩⟩)⟩
    "ns1" rfl rfl rfl (Or.inr ⟨rfl, rfl⟩)

end Admission
